import Mathlib

/-!
Verification development for the Session & Identity Coordinator of the
Idea-Scraper repository (frontend/src/contexts/AuthContext.tsx).

The Coordinator's operations (`login`, `register`, `logout`, the mount-time
`checkUser`, and the custom-table helpers `getUserFromCustomTable` and
`createUserInCustomTable`) are embedded as pure Lean functions.  Every
interaction with the two external collaborators (the Identity Provider and
the Relational Data Store) is parameterised by an explicit outcome value:
a call can return data, return an error object, lose a timeout race, or
reject with an exception, exactly matching the branches of the source.
React state (`user`, `loading`, `userCache`) is threaded explicitly as an
`AuthState` record, and every store round-trip an operation issues is
recorded in a `StoreAction` trace so that row-creation / deletion /
query-count properties can be stated.
-/

namespace IdeaScraper

/-- Row of the custom `User` table (interface `User` in `lib/supabase.ts`;
the runtime value of `user_id` is the Identity Provider's string id, as
inserted by `createUserInCustomTable`). -/
structure User where
  user_id : String
  first_name : String
  last_name : String
  email : String
  password_hash : String
  last_session_refresh : String
  is_paid : Bool
  created_at : String
  updated_at : String
deriving DecidableEq, Repr

/-- The Identity Provider's view of a user (`data.user` / `session.user`). -/
structure AuthUser where
  id : String
  email : String
  email_confirmed_at : Option String
deriving DecidableEq, Repr

/-- Error object returned (not thrown) by a provider or store call. -/
structure CallErr where
  code : String
  message : String
deriving DecidableEq, Repr

/-- A rejected promise: the exception value caught by a `catch` block. -/
structure Exn where
  message : String
deriving DecidableEq, Repr

/-- The in-memory `userCache : Map<string, User>`, as an association list;
the head entry for a key is its current binding. -/
abbrev Cache := List (String × User)

/-- Lookup in the cache (`userCache.get(email)` guarded by `has`). -/
def cacheGet (c : Cache) (email : String) : Option User :=
  match c.find? (fun p => p.1 == email) with
  | some p => some p.2
  | none => none

/-- Insertion (`new Map(prev).set(email, u)`): replaces any old binding. -/
def cacheSet (c : Cache) (email : String) (u : User) : Cache :=
  (email, u) :: c.filter (fun p => p.1 != email)

/-- Deletion (`new Map(prev); newCache.delete(email)`). -/
def cacheDelete (c : Cache) (email : String) : Cache :=
  c.filter (fun p => p.1 != email)

/-- The `clearStaleCache(email?)` operation: one entry or the whole cache. -/
def clearStaleCache (email : Option String) (c : Cache) : Cache :=
  match email with
  | some e => cacheDelete c e
  | none => []

/-- Outcome of a store round-trip that races a timeout: the call resolved
with data, resolved with an error object, or the timeout rejection won. -/
inductive DbOutcome (α : Type) where
  | ok (a : α)
  | err (e : CallErr)
  | timeout
deriving DecidableEq, Repr

/-- Store round-trips issued by an operation, in program order. -/
inductive StoreAction where
  | tableProbe
  | selectByEmail (email : String)
  | insertRow (row : User)
  | deleteById (user_id : String)
  | updLastLogin (user_id : String)
deriving DecidableEq, Repr

/-- Number of profile-table queries (select-by-email round-trips) in a trace. -/
def countQueries (as : List StoreAction) : Nat :=
  as.countP (fun a => match a with | .selectByEmail _ => true | _ => false)

/-- Number of insert round-trips in a trace. -/
def countInserts (as : List StoreAction) : Nat :=
  as.countP (fun a => match a with | .insertRow _ => true | _ => false)

/-- Function `getUserFromCustomTable(email)` (AuthContext.tsx lines
118-164): cache hit returns the cached user with no store query; on a miss
the select-by-email race is issued; a data result is cached and returned,
an error result or a lost race yields `null` (absent) and leaves the cache
unchanged; nothing is thrown to the caller. -/
def getUserFromCustomTable (email : String) (fetch : DbOutcome User)
    (c : Cache) : Option User × Cache × List StoreAction :=
  match cacheGet c email with
  | some cachedUser => (some cachedUser, c, [])
  | none =>
    match fetch with
    | .ok data => (some data, cacheSet c email data, [.selectByEmail email])
    | .err _ => (none, c, [.selectByEmail email])
    | .timeout => (none, c, [.selectByEmail email])

/-- Outcome of the initial table-structure probe in
`createUserInCustomTable`: data, an error object (early `null` return), or
a thrown exception (logged, then execution continues). -/
inductive TableCheckOutcome where
  | ok
  | err (e : CallErr)
  | thrown (e : Exn)
deriving DecidableEq, Repr

/-- Environment of one `createUserInCustomTable` call: the probe outcome
and the insert-race outcome (carrying the row the store returned). -/
structure CreateEnv where
  tableCheck : TableCheckOutcome
  insert : DbOutcome User
deriving DecidableEq, Repr

/-- The `userData` object built by `createUserInCustomTable`: the Identity
Provider's id is used as `user_id`, timestamps come from `new Date()`. -/
def mkUserData (authUser : AuthUser) (firstName lastName now : String) : User :=
  { user_id := authUser.id
    first_name := firstName
    last_name := lastName
    email := authUser.email
    password_hash := ""
    last_session_refresh := now
    is_paid := false
    created_at := now
    updated_at := now }

/-- Function `createUserInCustomTable(authUser, firstName, lastName)`
(AuthContext.tsx lines 35-115): probe the table (an error object aborts
with `null`, a thrown probe is swallowed); then insert `userData` under the
timeout race; a data result is cached under `authUser.email` and returned;
an error result or a lost race yields `null` with the cache unchanged. -/
def createUserInCustomTable (env : CreateEnv) (authUser : AuthUser)
    (firstName lastName now : String) (c : Cache) :
    Option User × Cache × List StoreAction :=
  match env.tableCheck with
  | .err _ => (none, c, [.tableProbe])
  | _ =>
    let row := mkUserData authUser firstName lastName now
    match env.insert with
    | .ok data => (some data, cacheSet c authUser.email data,
        [.tableProbe, .insertRow row])
    | .err _ => (none, c, [.tableProbe, .insertRow row])
    | .timeout => (none, c, [.tableProbe, .insertRow row])

/-- Tests whether `needle` occurs at the head of `hay`. -/
def occursAt (needle hay : List Char) : Bool :=
  match needle, hay with
  | [], _ => true
  | _ :: _, [] => false
  | a :: as, b :: bs => a == b && occursAt as bs

/-- Tests whether `needle` occurs anywhere in `hay`. -/
def occursIn (needle : List Char) : List Char → Bool
  | [] => occursAt needle []
  | b :: bs => occursAt needle (b :: bs) || occursIn needle bs

/-- JavaScript `hay.toLowerCase().includes(needle)` on strings (lower-casing
char by char, which agrees with `toLowerCase` on the ASCII needles used). -/
def lowerIncludes (hay needle : String) : Bool :=
  occursIn needle.data (hay.data.map Char.toLower)

/-- The duplicate-identity test of `register` (AuthContext.tsx lines
447-452): the provider error's code or lower-cased message signals that
the identity already exists. -/
def isDuplicateSignUpErr (e : CallErr) : Bool :=
  e.code == "user_already_exists" ||
  lowerIncludes e.message "already registered" ||
  lowerIncludes e.message "already exists" ||
  lowerIncludes e.message "already been registered" ||
  lowerIncludes e.message "user already exists" ||
  lowerIncludes e.message "email already in use"

/-- The state the UI observes, plus the process-local cache (`useState`
cells `user`, `loading`, `userCache`). -/
structure AuthState where
  user : Option User
  loading : Bool
  userCache : Cache
deriving DecidableEq, Repr

/-- State at mount: no user, loading, empty cache. -/
def initAuthState : AuthState :=
  { user := none, loading := true, userCache := [] }

/-- Outcome of `supabase.auth.signInWithPassword` under the auth-timeout
race: user data, an error object, a lost race (rejects with
`Authentication timeout`), or some other rejection. -/
inductive SignInOutcome where
  | ok (u : AuthUser)
  | err (e : CallErr)
  | timeout
  | thrown (e : Exn)
deriving DecidableEq, Repr

/-- Outcome of `supabase.auth.getSession` inside login's user-setup block:
a session with a user, no session, or a rejection (caught by the setup
`catch`). -/
inductive SessionOutcome where
  | ok (s : Option AuthUser)
  | thrown (e : Exn)
deriving DecidableEq, Repr

/-- Environment of the post-login user-setup block: whether the
`User setup timeout` race was lost, the session fetch outcome, and the
profile-fetch outcome used on a cache miss. -/
structure LoginSetupEnv where
  raceTimedOut : Bool
  session : SessionOutcome
  fetch : DbOutcome User
deriving DecidableEq, Repr

/-- Environment of one `login` call. -/
structure LoginEnv where
  signIn : SignInOutcome
  setup : LoginSetupEnv
deriving DecidableEq, Repr

/-- Result record of `login`: `{ error: string | null }`. -/
structure LoginRes where
  error : Option String
deriving DecidableEq, Repr

/-- The user-setup block of `login` (lines 347-390): resolve the session,
take the cache fast path (updating `last_login`), otherwise fetch from the
custom table; when nothing resolves, clear the stale cache entry.  All
failures are swallowed. -/
def loginSetup (env : LoginSetupEnv) (st : AuthState) :
    AuthState × List StoreAction :=
  match env.session with
  | .thrown _ => (st, [])
  | .ok none => (st, [])
  | .ok (some su) =>
    match cacheGet st.userCache su.email with
    | some cachedUser =>
      ({ st with user := some cachedUser }, [.updLastLogin cachedUser.user_id])
    | none =>
      match getUserFromCustomTable su.email env.fetch st.userCache with
      | (some customUser, c, as) =>
        ({ st with user := some customUser, userCache := c },
          as ++ [.updLastLogin customUser.user_id])
      | (none, c, as) =>
        ({ st with userCache := clearStaleCache (some su.email) c }, as)

/-- Body of `login` before its outermost `catch`: a lost auth race or a
rejected sign-in propagates as an exception; a provider error object is
returned verbatim; on sign-in success the setup block runs (unless its
race was lost) and the result is `{ error: null }` regardless. -/
def loginBody (env : LoginEnv) (st : AuthState) :
    Except Exn (LoginRes × AuthState × List StoreAction) :=
  match env.signIn with
  | .timeout => .error { message := "Authentication timeout" }
  | .thrown e => .error e
  | .err e => .ok ({ error := some e.message }, st, [])
  | .ok _ =>
    if env.setup.raceTimedOut then
      .ok ({ error := none }, st, [])
    else
      let (st2, as) := loginSetup env.setup st
      .ok ({ error := none }, st2, as)

/-- The outermost `catch` of `login` (lines 393-398). -/
def loginCatch (e : Exn) : LoginRes :=
  if e.message == "Authentication timeout" then
    { error := some "Authentication is taking too long. Please try again." }
  else
    { error := some "An unexpected error occurred" }

/-- Operation `login(email, password)` (lines 312-399). -/
def login (env : LoginEnv) (st : AuthState) :
    Except Exn (LoginRes × AuthState × List StoreAction) :=
  match loginBody env st with
  | .ok r => .ok r
  | .error e => .ok (loginCatch e, st, [])

/-- Outcome of `supabase.auth.signUp` under the signup-timeout race.  The
`okNoUser` case is a resolved call whose `data.user` is null (line 512). -/
inductive SignUpOutcome where
  | ok (u : AuthUser)
  | okNoUser
  | err (e : CallErr)
  | timeout
  | thrown (e : Exn)
deriving DecidableEq, Repr

/-- Outcome of the recovery `signInWithPassword` inside `register` (no
race; a rejection is caught by the recovery `catch`). -/
inductive RecSignInOutcome where
  | ok (u : AuthUser)
  | err (e : CallErr)
  | thrown (e : Exn)
deriving DecidableEq, Repr

/-- Environment of one `register` call. -/
structure RegisterEnv where
  now : String
  signUp : SignUpOutcome
  recSignIn : RecSignInOutcome
  recFetch : DbOutcome User
  recCreate : CreateEnv
  mainCreate : CreateEnv
  mainCreateRaceTimeout : Bool
deriving DecidableEq, Repr

/-- Result record of `register`: `{ error: string | null, success?: string }`. -/
structure RegRes where
  error : Option String
  success : Option String
deriving DecidableEq, Repr

/-- The stale-cache invalidation `register` performs first (lines
406-411): delete the supplied email's entry. -/
def registerInvalidate (st : AuthState) (email : String) : AuthState :=
  { st with userCache := cacheDelete st.userCache email }

/-- Body of `register` after the initial cache invalidation (lines
413-588, except the outermost `catch`), on state `st1`: sign up; classify
provider errors (invalid email, duplicate identity with its recovery path,
weak password, pass-through); on sign-up success create the profile row
under the creation-timeout race, delete it again on an id mismatch, and
otherwise report success. -/
def registerMain (env : RegisterEnv) (firstName lastName email : String)
    (st1 : AuthState) : Except Exn (RegRes × AuthState × List StoreAction) :=
  match env.signUp with
  | .timeout => .error { message := "Signup timeout" }
  | .thrown e => .error e
  | .err e =>
    if e.code == "email_address_invalid" then
      .ok ({ error := some "Email address format is not accepted. Please use a different email address.",
             success := none }, st1, [])
    else if isDuplicateSignUpErr e then
      match env.recSignIn with
      | .err _ =>
        .ok ({ error := some "User already exists, please login",
               success := none }, st1, [])
      | .thrown _ =>
        .ok ({ error := some "User already exists, please login",
               success := none }, st1, [])
      | .ok u =>
        match getUserFromCustomTable email env.recFetch st1.userCache with
        | (some _, c2, as) =>
          .ok ({ error := none, success := some "User already exists, please login" },
            { st1 with userCache := c2 }, as)
        | (none, c2, as) =>
          match createUserInCustomTable env.recCreate u firstName lastName env.now c2 with
          | (some _, c3, as2) =>
            .ok ({ error := none, success := some "User setup completed, please login" },
              { st1 with userCache := c3 }, as ++ as2)
          | (none, c3, as2) =>
            .ok ({ error := some "User exists but profile setup failed. Please contact support.",
                   success := none }, { st1 with userCache := c3 }, as ++ as2)
    else if e.code == "weak_password" then
      .ok ({ error := some "Password is too weak. Please use a stronger password.",
             success := none }, st1, [])
    else if e.code == "invalid_email" then
      .ok ({ error := some "Email address format is invalid. Please check your email address.",
             success := none }, st1, [])
    else
      .ok ({ error := some e.message, success := none }, st1, [])
  | .okNoUser =>
    .ok ({ error := some "User registration failed. Please try again.",
           success := none }, st1, [])
  | .ok u =>
    if env.mainCreateRaceTimeout then
      .ok ({ error := some "Registration timed out. Please try again.",
             success := none }, st1, [])
    else
      match createUserInCustomTable env.mainCreate u firstName lastName env.now st1.userCache with
      | (none, c2, as) =>
        .ok ({ error := some "Failed to create user profile. Please try again.",
               success := none }, { st1 with userCache := c2 }, as)
      | (some customUser, c2, as) =>
        if customUser.user_id != u.id then
          .ok ({ error := some "User profile creation failed. Please try again.",
                 success := none }, { st1 with userCache := c2 },
            as ++ [.deleteById customUser.user_id])
        else
          .ok ({ error := none, success := some "User registered, please login" },
            { st1 with userCache := c2 }, as)

/-- The outermost `catch` of `register` (lines 580-588). -/
def registerCatch (e : Exn) : RegRes :=
  if e.message == "Signup timeout" then
    { error := some "Registration is taking too long. Please try again.",
      success := none }
  else if e.message == "User creation timeout" then
    { error := some "Registration successful but user setup is taking too long. Please try logging in manually.",
      success := none }
  else
    { error := some "An unexpected error occurred", success := none }

/-- The part of `register` downstream of the cache invalidation, with the
outermost `catch` applied (exceptions can only arise at the sign-up call,
after the invalidation has taken effect). -/
def registerFrom (env : RegisterEnv) (firstName lastName email : String)
    (st1 : AuthState) : Except Exn (RegRes × AuthState × List StoreAction) :=
  match registerMain env firstName lastName email st1 with
  | .ok r => .ok r
  | .error e => .ok (registerCatch e, st1, [])

/-- Operation `register(firstName, lastName, email, password)` (lines
401-589): invalidate the cache entry for `email` first, then run the
sign-up flow. -/
def register (env : RegisterEnv) (firstName lastName email : String)
    (st : AuthState) : Except Exn (RegRes × AuthState × List StoreAction) :=
  registerFrom env firstName lastName email (registerInvalidate st email)

/-- Outcome of `supabase.auth.signOut()`: the promise resolved (its error
field, if any, is ignored by `logout`) or rejected. -/
inductive SignOutOutcome where
  | ret (err : Option String)
  | thrown (e : Exn)
deriving DecidableEq, Repr

/-- Body of `logout` before its `catch` (lines 592-598): await sign-out,
then clear the user and replace the cache with a fresh empty map. -/
def logoutBody (o : SignOutOutcome) (st : AuthState) : Except Exn AuthState :=
  match o with
  | .ret _ => .ok { st with user := none, userCache := [] }
  | .thrown e => .error e

/-- Operation `logout()` (lines 591-602): the `catch` only logs, so a
rejected sign-out leaves the state as it was. -/
def logout (o : SignOutOutcome) (st : AuthState) : Except Exn AuthState :=
  match logoutBody o st with
  | .ok st2 => .ok st2
  | .error _ => .ok st

/-- Outcome of `supabase.auth.getSession()` under the 3-second race inside
`checkUser`. -/
inductive CheckSessionOutcome where
  | ok (s : Option AuthUser)
  | timeout
  | thrown (e : Exn)
deriving DecidableEq, Repr

/-- Environment of the mount-time `checkUser` run. -/
structure CheckEnv where
  session : CheckSessionOutcome
  fetch : DbOutcome User
deriving DecidableEq, Repr

/-- The mount-time session check `checkUser` (lines 240-266): fetch the
session under the race; with a session user, resolve the profile via
`getUserFromCustomTable` and publish it when found; every failure is
caught; the `finally` always sets `loading := false`. -/
def checkUser (env : CheckEnv) (st : AuthState) : AuthState :=
  match env.session with
  | .timeout => { st with loading := false }
  | .thrown _ => { st with loading := false }
  | .ok none => { st with loading := false }
  | .ok (some su) =>
    match getUserFromCustomTable su.email env.fetch st.userCache with
    | (some customUser, c, _) =>
      { user := some customUser, loading := false, userCache := c }
    | (none, c, _) => { st with userCache := c, loading := false }

/-- Holds when the session fetch of `checkUser` fails or times out, or a
session user is present but profile resolution fails at the store (on the
empty mount-time cache the fetch outcome decides). -/
def checkFails (env : CheckEnv) : Bool :=
  match env.session with
  | .timeout => true
  | .thrown _ => true
  | .ok none => false
  | .ok (some _) =>
    match env.fetch with
    | .ok _ => false
    | .err _ => true
    | .timeout => true

/-- Tests whether a store outcome is a miss (error object or lost race). -/
def dbMiss : DbOutcome User → Bool
  | .ok _ => false
  | .err _ => true
  | .timeout => true

/-- Tests whether the table probe returned an error object (the case that
makes `createUserInCustomTable` return `null` before inserting). -/
def tableCheckFailed : TableCheckOutcome → Bool
  | .err _ => true
  | .ok => false
  | .thrown _ => false

/-- Sample profile row used in concrete witnesses. -/
def sampleUser : User :=
  { user_id := "auth-1", first_name := "Jane", last_name := "Doe",
    email := "jane@x.com", password_hash := "", last_session_refresh := "t0",
    is_paid := false, created_at := "t0", updated_at := "t0" }

/-- Sample row whose `user_id` differs from the identity id. -/
def sampleRowWrongId : User := { sampleUser with user_id := "row-9" }

/-- Sample Identity-Provider user (email not confirmed). -/
def sampleAuthUser : AuthUser :=
  { id := "auth-1", email := "jane@x.com", email_confirmed_at := none }

/-- Sample duplicate-identity sign-up error. -/
def dupErr : CallErr :=
  { code := "user_already_exists", message := "User already exists" }

/-- Register environment: duplicate identity, recovery sign-in rejected by
the provider. -/
def dupSignInFailEnv : RegisterEnv :=
  { now := "t0", signUp := .err dupErr,
    recSignIn := .err { code := "invalid_credentials", message := "Invalid login credentials" },
    recFetch := .timeout, recCreate := { tableCheck := .ok, insert := .timeout },
    mainCreate := { tableCheck := .ok, insert := .timeout },
    mainCreateRaceTimeout := false }

/-- Register environment: duplicate identity, recovery sign-in succeeds,
profile row already present. -/
def dupRowExistsEnv : RegisterEnv :=
  { now := "t0", signUp := .err dupErr, recSignIn := .ok sampleAuthUser,
    recFetch := .ok sampleUser,
    recCreate := { tableCheck := .ok, insert := .timeout },
    mainCreate := { tableCheck := .ok, insert := .timeout },
    mainCreateRaceTimeout := false }

/-- Register environment: duplicate identity, recovery sign-in succeeds,
profile row missing, creation succeeds. -/
def dupRowMissingEnv : RegisterEnv :=
  { now := "t0", signUp := .err dupErr, recSignIn := .ok sampleAuthUser,
    recFetch := .err { code := "PGRST116", message := "not found" },
    recCreate := { tableCheck := .ok, insert := .ok sampleUser },
    mainCreate := { tableCheck := .ok, insert := .timeout },
    mainCreateRaceTimeout := false }

/-- Register environment: sign-up succeeds but the store returns a row
whose `user_id` differs from the identity id. -/
def idMismatchEnv : RegisterEnv :=
  { now := "t0", signUp := .ok sampleAuthUser,
    recSignIn := .err { code := "invalid_credentials", message := "Invalid login credentials" },
    recFetch := .timeout, recCreate := { tableCheck := .ok, insert := .timeout },
    mainCreate := { tableCheck := .ok, insert := .ok sampleRowWrongId },
    mainCreateRaceTimeout := false }

/-- Login environment: password sign-in succeeds for an unconfirmed user. -/
def unconfirmedLoginEnv : LoginEnv :=
  { signIn := .ok sampleAuthUser,
    setup := { raceTimedOut := false, session := .ok none, fetch := .timeout } }

/-- Mount environment where the session fetch loses its timeout race. -/
def failCheckEnv : CheckEnv := { session := .timeout, fetch := .timeout }

theorem cacheGet_set_self (c : Cache) (e : String) (u : User) :
    cacheGet (cacheSet c e u) e = some u := by
  simp [cacheGet, cacheSet, List.find?]

theorem cacheGet_delete_self (c : Cache) (e : String) :
    cacheGet (cacheDelete c e) e = none := by
  unfold cacheGet cacheDelete
  have h : (c.filter (fun p => p.1 != e)).find? (fun p => p.1 == e) = none := by
    rw [List.find?_eq_none]
    intro p hp
    have h2 := List.of_mem_filter hp
    simp only [bne_iff_ne, ne_eq] at h2
    simp [h2]
  rw [h]

theorem cacheGet_delete_other (c : Cache) (e e2 : String) (h : e2 ≠ e) :
    cacheGet (cacheDelete c e) e2 = cacheGet c e2 := by
  induction c with
  | nil => rfl
  | cons p c ih =>
    by_cases hp : p.1 = e
    · have hdrop : (p.1 != e) = false := by simp [hp]
      have hne : (p.1 == e2) = false := by
        simp only [beq_eq_false_iff_ne, ne_eq, hp]
        exact fun h2 => h h2.symm
      simp [cacheDelete, cacheGet, List.filter_cons, List.find?_cons, hdrop, hne] at ih ⊢
      exact ih
    · simp [cacheDelete, cacheGet, List.filter_cons, List.find?_cons, hp] at ih ⊢
      cases hbe : (p.1 == e2) <;> simp [hbe, ih]

theorem mem_cacheSet (c : Cache) (e : String) (u : User) (p : String × User)
    (hp : p ∈ cacheSet c e u) : p = (e, u) ∨ p ∈ c := by
  unfold cacheSet at hp
  rcases List.mem_cons.mp hp with h | h
  · exact .inl h
  · exact .inr (List.mem_of_mem_filter h)

/-- C7: `getUserFromCustomTable` checks the cache first and answers a hit
with no store query; on a miss it issues exactly one select, caching and
returning a found row, and returning absent (without throwing) on a store
error or timeout; two successive calls for a cached email issue at most
one store query (in fact none), and after any call that resolves a
profile, an immediately following call issues no query. -/
theorem getUserFromCustomTable_cache_first (email : String) (c : Cache)
    (f f2 : DbOutcome User) :
    (∀ u, cacheGet c email = some u →
      getUserFromCustomTable email f c = (some u, c, [])) ∧
    (∀ u, cacheGet c email = none → f = .ok u →
      getUserFromCustomTable email f c =
        (some u, cacheSet c email u, [.selectByEmail email])) ∧
    (cacheGet c email = none → dbMiss f = true →
      getUserFromCustomTable email f c = (none, c, [.selectByEmail email])) ∧
    (∀ u, cacheGet c email = some u →
      countQueries (getUserFromCustomTable email f c).2.2 +
        countQueries (getUserFromCustomTable email f2
          (getUserFromCustomTable email f c).2.1).2.2 ≤ 1) ∧
    (∀ u, (getUserFromCustomTable email f c).1 = some u →
      countQueries (getUserFromCustomTable email f2
        (getUserFromCustomTable email f c).2.1).2.2 = 0) := by
  refine ⟨?_, ?_, ?_, ?_, ?_⟩
  · intro u hu
    simp [getUserFromCustomTable, hu]
  · intro u hmiss hf
    simp [getUserFromCustomTable, hmiss, hf]
  · intro hmiss hf
    cases f with
    | ok v => simp [dbMiss] at hf
    | err e => simp [getUserFromCustomTable, hmiss]
    | timeout => simp [getUserFromCustomTable, hmiss]
  · intro u hu
    simp [getUserFromCustomTable, hu, countQueries]
  · intro u hu
    cases hc : cacheGet c email with
    | some v =>
      simp [getUserFromCustomTable, hc, countQueries]
    | none =>
      cases f with
      | ok v =>
        simp [getUserFromCustomTable, hc, cacheGet_set_self, countQueries]
      | err e => simp [getUserFromCustomTable, hc] at hu
      | timeout => simp [getUserFromCustomTable, hc] at hu

/-- C7 witness: concrete runs — a cached email is answered from the cache
with no query, a miss followed by a found row caches it, a store timeout
returns absent, and the two-call query bounds at concrete inputs. -/
theorem getUserFromCustomTable_cache_first_witness :
    getUserFromCustomTable "jane@x.com" DbOutcome.timeout
        [("jane@x.com", sampleUser)] =
      (some sampleUser, [("jane@x.com", sampleUser)], []) ∧
    getUserFromCustomTable "jane@x.com" (DbOutcome.ok sampleUser) [] =
      (some sampleUser, cacheSet [] "jane@x.com" sampleUser,
        [.selectByEmail "jane@x.com"]) ∧
    getUserFromCustomTable "jane@x.com" DbOutcome.timeout [] =
      (none, [], [.selectByEmail "jane@x.com"]) ∧
    countQueries (getUserFromCustomTable "jane@x.com" DbOutcome.timeout
        [("jane@x.com", sampleUser)]).2.2 +
      countQueries (getUserFromCustomTable "jane@x.com" DbOutcome.timeout
        (getUserFromCustomTable "jane@x.com" DbOutcome.timeout
          [("jane@x.com", sampleUser)]).2.1).2.2 ≤ 1 ∧
    countQueries (getUserFromCustomTable "jane@x.com" DbOutcome.timeout
      (getUserFromCustomTable "jane@x.com" (DbOutcome.ok sampleUser)
        []).2.1).2.2 = 0 := by
  obtain ⟨h1, h2, h3, h4, h5⟩ :=
    getUserFromCustomTable_cache_first "jane@x.com"
      [("jane@x.com", sampleUser)] DbOutcome.timeout DbOutcome.timeout
  obtain ⟨g1, g2, g3, g4, g5⟩ :=
    getUserFromCustomTable_cache_first "jane@x.com" ([] : Cache)
      (DbOutcome.ok sampleUser) DbOutcome.timeout
  obtain ⟨k1, k2, k3, k4, k5⟩ :=
    getUserFromCustomTable_cache_first "jane@x.com" ([] : Cache)
      DbOutcome.timeout DbOutcome.timeout
  exact ⟨h1 sampleUser (by decide), g2 sampleUser (by decide) rfl,
    k3 (by decide) rfl, h4 sampleUser (by decide), g5 sampleUser (by decide)⟩

/-- C9: every cache entry present after `getUserFromCustomTable` or
`createUserInCustomTable` was either there before the call or is exactly a
row returned by the successful store operation the call performed (a fetch
keyed by the fetched email, an insert keyed by the identity's email);
failed results (error, timeout, absent row) are never cached. -/
theorem cache_entries_from_successful_store_ops (email : String)
    (f : DbOutcome User) (c : Cache) (env : CreateEnv) (au : AuthUser)
    (fn ln now : String) (p : String × User) :
    (p ∈ (getUserFromCustomTable email f c).2.1 →
      p ∈ c ∨ (f = .ok p.2 ∧ p.1 = email)) ∧
    (p ∈ (createUserInCustomTable env au fn ln now c).2.1 →
      p ∈ c ∨ (env.insert = .ok p.2 ∧ p.1 = au.email)) := by
  constructor
  · intro hp
    cases hc : cacheGet c email with
    | some v =>
      simp only [getUserFromCustomTable, hc] at hp
      exact .inl hp
    | none =>
      cases f with
      | ok v =>
        simp only [getUserFromCustomTable, hc] at hp
        rcases mem_cacheSet c email v p hp with h | h
        · subst h
          exact .inr ⟨rfl, rfl⟩
        · exact .inl h
      | err e =>
        simp only [getUserFromCustomTable, hc] at hp
        exact .inl hp
      | timeout =>
        simp only [getUserFromCustomTable, hc] at hp
        exact .inl hp
  · intro hp
    cases htc : env.tableCheck with
    | err e =>
      simp only [createUserInCustomTable, htc] at hp
      exact .inl hp
    | ok =>
      cases hins : env.insert with
      | ok v =>
        simp only [createUserInCustomTable, htc, hins] at hp
        rcases mem_cacheSet c au.email v p hp with h | h
        · subst h
          exact .inr ⟨rfl, rfl⟩
        · exact .inl h
      | err e =>
        simp only [createUserInCustomTable, htc, hins] at hp
        exact .inl hp
      | timeout =>
        simp only [createUserInCustomTable, htc, hins] at hp
        exact .inl hp
    | thrown e =>
      cases hins : env.insert with
      | ok v =>
        simp only [createUserInCustomTable, htc, hins] at hp
        rcases mem_cacheSet c au.email v p hp with h | h
        · subst h
          exact .inr ⟨rfl, rfl⟩
        · exact .inl h
      | err e2 =>
        simp only [createUserInCustomTable, htc, hins] at hp
        exact .inl hp
      | timeout =>
        simp only [createUserInCustomTable, htc, hins] at hp
        exact .inl hp

/-- C9 witness: the entry cached by a successful fetch on the empty cache
is exactly the fetched row keyed by the fetched email. -/
theorem cache_entries_from_successful_store_ops_witness :
    ("jane@x.com", sampleUser) ∈ ([] : Cache) ∨
      (DbOutcome.ok sampleUser = DbOutcome.ok sampleUser ∧
        ("jane@x.com", sampleUser).1 = "jane@x.com") := by
  exact (cache_entries_from_successful_store_ops "jane@x.com"
    (DbOutcome.ok sampleUser) ([] : Cache)
    { tableCheck := .ok, insert := .timeout } sampleAuthUser "Jane" "Doe" "t0"
    ("jane@x.com", sampleUser)).1 (by decide)

/-- C10: `register` factors through the initial cache invalidation (its
first action, before any Identity Provider call), and that invalidation
removes exactly the supplied email's entry: afterwards the supplied email
is absent from the cache and every other email's binding is unchanged. -/
theorem register_invalidates_only_target_email (env : RegisterEnv)
    (fn ln email e2 : String) (st : AuthState) (hne : e2 ≠ email) :
    register env fn ln email st =
      registerFrom env fn ln email (registerInvalidate st email) ∧
    cacheGet (registerInvalidate st email).userCache email = none ∧
    cacheGet (registerInvalidate st email).userCache e2 =
      cacheGet st.userCache e2 := by
  refine ⟨rfl, ?_, ?_⟩
  · exact cacheGet_delete_self st.userCache email
  · exact cacheGet_delete_other st.userCache email e2 hne

/-- C10 witness: with two cached entries, invalidating `jane@x.com` leaves
`other@x.com` bound and `jane@x.com` unbound, and `register` runs on the
invalidated state. -/
theorem register_invalidates_only_target_email_witness :
    register dupSignInFailEnv "Jane" "Doe" "jane@x.com"
        { user := none, loading := false,
          userCache := [("jane@x.com", sampleUser), ("other@x.com", sampleUser)] } =
      registerFrom dupSignInFailEnv "Jane" "Doe" "jane@x.com"
        (registerInvalidate
          { user := none, loading := false,
            userCache := [("jane@x.com", sampleUser), ("other@x.com", sampleUser)] }
          "jane@x.com") ∧
    cacheGet (registerInvalidate
        { user := none, loading := false,
          userCache := [("jane@x.com", sampleUser), ("other@x.com", sampleUser)] }
        "jane@x.com").userCache "jane@x.com" = none ∧
    cacheGet (registerInvalidate
        { user := none, loading := false,
          userCache := [("jane@x.com", sampleUser), ("other@x.com", sampleUser)] }
        "jane@x.com").userCache "other@x.com" =
      cacheGet [("jane@x.com", sampleUser), ("other@x.com", sampleUser)] "other@x.com" := by
  exact register_invalidates_only_target_email dupSignInFailEnv "Jane" "Doe"
    "jane@x.com" "other@x.com"
    { user := none, loading := false,
      userCache := [("jane@x.com", sampleUser), ("other@x.com", sampleUser)] }
    (by decide)

/-- C1 counterexample: there is a prior state (a logged-in user with a
non-empty cache) and a sign-out outcome (the call rejects) for which
`logout()` completes — the `catch` swallows the exception — yet the user is
still present and the cache still non-empty, so the claim that logout
clears them unconditionally, including when the sign-out call fails, is
false on the code. -/
theorem logout_throw_keeps_state_cex :
    logout (.thrown { message := "network failure" })
        { user := some sampleUser, loading := false,
          userCache := [("jane@x.com", sampleUser)] } =
      .ok { user := some sampleUser, loading := false,
            userCache := [("jane@x.com", sampleUser)] } ∧
    (some sampleUser ≠ (none : Option User)) ∧
    ([("jane@x.com", sampleUser)] ≠ ([] : Cache)) := by
  exact ⟨rfl, by decide, by decide⟩

/-- C1 (amended): for every prior state, `logout()` calls the Identity
Provider's sign-out and, whenever that call resolves — including resolving
with an error value, which logout ignores — clears `AuthUiState.user` and
replaces the cache with a fresh empty one; when the sign-out call rejects,
the exception is caught and neither the user nor the cache is cleared. -/
theorem logout_clears_on_resolved_signout (st : AuthState)
    (err : Option String) :
    logout (.ret err) st = .ok { st with user := none, userCache := [] } ∧
    (∀ e : Exn, logout (.thrown e) st = .ok st) := by
  exact ⟨rfl, fun e => rfl⟩

/-- C5: `checkUser` (the body of `initialize()`) always terminates with
`loading = false`, for every session-fetch and profile-fetch outcome and
every prior state; and on the mount-time state, whenever the session fetch
times out or rejects, or profile resolution misses at the store, the
failure is non-fatal and the published user is absent. -/
theorem checkUser_nonfatal_reaches_loading_false (env : CheckEnv)
    (st : AuthState) :
    (checkUser env st).loading = false ∧
    (checkFails env = true → (checkUser env initAuthState).user = none) := by
  constructor
  · cases hs : env.session with
    | timeout => simp [checkUser, hs]
    | thrown e => simp [checkUser, hs]
    | ok s =>
      cases s with
      | none => simp [checkUser, hs]
      | some su =>
        cases hr : getUserFromCustomTable su.email env.fetch st.userCache with
        | mk r rest =>
          cases r with
          | some u => simp [checkUser, hs, hr]
          | none => simp [checkUser, hs, hr]
  · intro hfail
    cases hs : env.session with
    | timeout => simp [checkUser, hs, initAuthState]
    | thrown e => simp [checkUser, hs, initAuthState]
    | ok s =>
      cases s with
      | none => simp [checkUser, hs, initAuthState]
      | some su =>
        cases hf : env.fetch with
        | ok v => simp [checkFails, hs, hf] at hfail
        | err e =>
          simp [checkUser, hs, hf, initAuthState, getUserFromCustomTable,
            cacheGet]
        | timeout =>
          simp [checkUser, hs, hf, initAuthState, getUserFromCustomTable,
            cacheGet]

/-- C5 witness: when the session fetch loses its 3-second race at mount,
the run still ends with `loading = false` and an absent user. -/
theorem checkUser_nonfatal_witness :
    (checkUser failCheckEnv initAuthState).loading = false ∧
    (checkUser failCheckEnv initAuthState).user = none := by
  obtain ⟨h1, h2⟩ := checkUser_nonfatal_reaches_loading_false failCheckEnv
    initAuthState
  exact ⟨h1, h2 (by decide)⟩

/-- C6: for every environment (every provider outcome, store outcome,
timeout, or rejection) and every prior state, each of `login`, `register`
and `logout` returns a result value: none of them ever propagates an
exception to the caller. -/
theorem operations_never_escape_exceptions (lenv : LoginEnv)
    (renv : RegisterEnv) (o : SignOutOutcome) (fn ln email : String)
    (st1 st2 st3 : AuthState) :
    (∃ r, login lenv st1 = .ok r) ∧
    (∃ r, register renv fn ln email st2 = .ok r) ∧
    (∃ st4, logout o st3 = .ok st4) := by
  refine ⟨?_, ?_, ?_⟩
  · cases h : loginBody lenv st1 with
    | ok r => exact ⟨r, by simp [login, h]⟩
    | error e => exact ⟨(loginCatch e, st1, []), by simp [login, h]⟩
  · cases h : registerMain renv fn ln email (registerInvalidate st2 email) with
    | ok r => exact ⟨r, by simp [register, registerFrom, h]⟩
    | error e =>
      exact ⟨(registerCatch e, registerInvalidate st2 email, []),
        by simp [register, registerFrom, h]⟩
  · cases h : logoutBody o st3 with
    | ok s => exact ⟨s, by simp [logout, h]⟩
    | error e => exact ⟨st3, by simp [logout, h]⟩

/-- C8: whenever the Identity Provider's password sign-in succeeds, `login`
returns `{ error: null }` even when the identity's email is not confirmed
(`email_confirmed_at` absent): the confirmation check is disabled and
nothing downstream can change the successful result. -/
theorem login_succeeds_without_email_confirmation (env : LoginEnv)
    (st : AuthState) (u : AuthUser) (hok : env.signIn = .ok u)
    (hunconfirmed : u.email_confirmed_at = none) :
    ∃ st2 as, login env st = .ok ({ error := none }, st2, as) := by
  cases hrace : env.setup.raceTimedOut with
  | true => exact ⟨st, [], by simp [login, loginBody, hok, hrace]⟩
  | false =>
    cases hsetup : loginSetup env.setup st with
    | mk st2 as =>
      exact ⟨st2, as, by simp [login, loginBody, hok, hrace, hsetup]⟩

/-- C8 witness: a successful sign-in for the unconfirmed sample user
returns `{ error: null }`. -/
theorem login_succeeds_without_email_confirmation_witness :
    ∃ st2 as, login unconfirmedLoginEnv initAuthState =
      .ok ({ error := none }, st2, as) := by
  exact login_succeeds_without_email_confirmation unconfirmedLoginEnv
    initAuthState sampleAuthUser rfl rfl

theorem getUserFromCustomTable_miss (email : String) (f : DbOutcome User)
    (c : Cache) (hc : cacheGet c email = none) (hf : dbMiss f = true) :
    getUserFromCustomTable email f c = (none, c, [.selectByEmail email]) := by
  cases f with
  | ok v => simp [dbMiss] at hf
  | err e => simp [getUserFromCustomTable, hc]
  | timeout => simp [getUserFromCustomTable, hc]

theorem createUserInCustomTable_insert_bound (env : CreateEnv)
    (au : AuthUser) (fn ln now : String) (c : Cache) :
    countInserts (createUserInCustomTable env au fn ln now c).2.2 ≤ 1 := by
  rcases env with ⟨tc, ins⟩
  cases tc <;> cases ins <;> simp [createUserInCustomTable, countInserts]

theorem createUserInCustomTable_ok (env : CreateEnv) (au : AuthUser)
    (fn ln now : String) (c : Cache) (row : User)
    (htc : tableCheckFailed env.tableCheck = false)
    (hins : env.insert = .ok row) :
    createUserInCustomTable env au fn ln now c =
      (some row, cacheSet c au.email row,
        [.tableProbe, .insertRow (mkUserData au fn ln now)]) := by
  rcases env with ⟨tc, ins⟩
  cases tc with
  | err e => simp [tableCheckFailed] at htc
  | ok => simp_all [createUserInCustomTable]
  | thrown e => simp_all [createUserInCustomTable]

/-- C2 counterexample: with a concrete second-registration environment in
which the Identity Provider reports the identity already exists and the
recovery sign-in is rejected (e.g. the unconfirmed-email rejection or a
wrong password), `register` returns an error result — success absent — so
the claim that the second attempt always returns a success result carrying
an "already exists" message is false on the code. -/
theorem register_duplicate_errors_cex :
    register dupSignInFailEnv "Jane" "Doe" "jane@x.com" initAuthState =
      .ok ({ error := some "User already exists, please login",
             success := none }, initAuthState, []) ∧
    (some "User already exists, please login" ≠ (none : Option String)) := by
  exact ⟨rfl, by decide⟩

/-- C2 (amended): when the second register with the same email receives
the provider's identity-already-exists error, `register` resolves via the
recovery path and never throws; it issues at most one profile insert, and
none at all when a matching profile row is found (so a second row is never
created); and its result is one of the four recovery results — success
"already exists" (sign-in ok, row present), success "setup completed"
(sign-in ok, missing row created), or the errors "User already exists,
please login" / "User exists but profile setup failed. Please contact
support." — never a raw provider exception. -/
theorem register_duplicate_recovery_results (env : RegisterEnv)
    (fn ln email : String) (st : AuthState) (e : CallErr)
    (hsu : env.signUp = .err e) (hdup : isDuplicateSignUpErr e = true)
    (hcode : e.code ≠ "email_address_invalid") :
    (∃ out, register env fn ln email st = .ok out) ∧
    (∀ res st2 as, register env fn ln email st = .ok (res, st2, as) →
      countInserts as ≤ 1) ∧
    (∀ row res st2 as, env.recFetch = .ok row →
      register env fn ln email st = .ok (res, st2, as) →
      countInserts as = 0) ∧
    (∀ res st2 as, register env fn ln email st = .ok (res, st2, as) →
      res = { error := some "User already exists, please login",
              success := none } ∨
      res = { error := none,
              success := some "User already exists, please login" } ∨
      res = { error := none,
              success := some "User setup completed, please login" } ∨
      res = { error := some "User exists but profile setup failed. Please contact support.",
              success := none }) := by
  have hc : (e.code == "email_address_invalid") = false :=
    beq_eq_false_iff_ne.mpr hcode
  have hmiss : cacheGet (cacheDelete st.userCache email) email = none :=
    cacheGet_delete_self st.userCache email
  have key : ∃ out, register env fn ln email st = .ok out ∧
      countInserts out.2.2 ≤ 1 ∧
      (∀ row, env.recFetch = .ok row → countInserts out.2.2 = 0) ∧
      (out.1 = { error := some "User already exists, please login",
                 success := none } ∨
       out.1 = { error := none,
                 success := some "User already exists, please login" } ∨
       out.1 = { error := none,
                 success := some "User setup completed, please login" } ∨
       out.1 = { error := some "User exists but profile setup failed. Please contact support.",
                 success := none }) := by
    cases hrec : env.recSignIn with
    | err e2 =>
      refine ⟨({ error := some "User already exists, please login", success := none },
               registerInvalidate st email, []), ?_, ?_, ?_, ?_⟩
      · simp [register, registerFrom, registerMain, hsu, hc, hdup, hrec]
      · simp [countInserts]
      · intro row hrow
        simp [countInserts]
      · left
        rfl
    | thrown e2 =>
      refine ⟨({ error := some "User already exists, please login", success := none },
               registerInvalidate st email, []), ?_, ?_, ?_, ?_⟩
      · simp [register, registerFrom, registerMain, hsu, hc, hdup, hrec]
      · simp [countInserts]
      · intro row hrow
        simp [countInserts]
      · left
        rfl
    | ok u =>
      cases hrf : env.recFetch with
      | ok row =>
        refine ⟨({ error := none, success := some "User already exists, please login" },
                 { st with userCache := cacheSet (cacheDelete st.userCache email) email row },
                 [.selectByEmail email]), ?_, ?_, ?_, ?_⟩
        · simp [register, registerFrom, registerMain, registerInvalidate,
            hsu, hc, hdup, hrec, getUserFromCustomTable, hmiss, hrf]
        · simp [countInserts]
        · intro row2 hrow
          simp [countInserts]
        · right
          left
          rfl
      | err e2 =>
        have hget : getUserFromCustomTable email env.recFetch
            (cacheDelete st.userCache email) =
            (none, cacheDelete st.userCache email, [.selectByEmail email]) :=
          getUserFromCustomTable_miss email env.recFetch
            (cacheDelete st.userCache email) hmiss (by simp [hrf, dbMiss])
        have hbound := createUserInCustomTable_insert_bound env.recCreate u
          fn ln env.now (cacheDelete st.userCache email)
        rcases hcv : createUserInCustomTable env.recCreate u fn ln env.now
          (cacheDelete st.userCache email) with ⟨r, c2, as2⟩
        rw [hcv] at hbound
        cases r with
        | some row2 =>
          refine ⟨({ error := none, success := some "User setup completed, please login" },
                   { st with userCache := c2 }, [.selectByEmail email] ++ as2),
                   ?_, ?_, ?_, ?_⟩
          · simp [register, registerFrom, registerMain, registerInvalidate,
              hsu, hc, hdup, hrec, hget, hcv]
          · simpa [countInserts, List.countP_append] using hbound
          · intro row3 hrow
            simp at hrow
          · right
            right
            left
            rfl
        | none =>
          refine ⟨({ error := some "User exists but profile setup failed. Please contact support.", success := none },
                   { st with userCache := c2 }, [.selectByEmail email] ++ as2),
                   ?_, ?_, ?_, ?_⟩
          · simp [register, registerFrom, registerMain, registerInvalidate,
              hsu, hc, hdup, hrec, hget, hcv]
          · simpa [countInserts, List.countP_append] using hbound
          · intro row3 hrow
            simp at hrow
          · right
            right
            right
            rfl
      | timeout =>
        have hget : getUserFromCustomTable email env.recFetch
            (cacheDelete st.userCache email) =
            (none, cacheDelete st.userCache email, [.selectByEmail email]) :=
          getUserFromCustomTable_miss email env.recFetch
            (cacheDelete st.userCache email) hmiss (by simp [hrf, dbMiss])
        have hbound := createUserInCustomTable_insert_bound env.recCreate u
          fn ln env.now (cacheDelete st.userCache email)
        rcases hcv : createUserInCustomTable env.recCreate u fn ln env.now
          (cacheDelete st.userCache email) with ⟨r, c2, as2⟩
        rw [hcv] at hbound
        cases r with
        | some row2 =>
          refine ⟨({ error := none, success := some "User setup completed, please login" },
                   { st with userCache := c2 }, [.selectByEmail email] ++ as2),
                   ?_, ?_, ?_, ?_⟩
          · simp [register, registerFrom, registerMain, registerInvalidate,
              hsu, hc, hdup, hrec, hget, hcv]
          · simpa [countInserts, List.countP_append] using hbound
          · intro row3 hrow
            simp at hrow
          · right
            right
            left
            rfl
        | none =>
          refine ⟨({ error := some "User exists but profile setup failed. Please contact support.", success := none },
                   { st with userCache := c2 }, [.selectByEmail email] ++ as2),
                   ?_, ?_, ?_, ?_⟩
          · simp [register, registerFrom, registerMain, registerInvalidate,
              hsu, hc, hdup, hrec, hget, hcv]
          · simpa [countInserts, List.countP_append] using hbound
          · intro row3 hrow
            simp at hrow
          · right
            right
            right
            rfl
  obtain ⟨out, hout, hcount, hfetch0, hres⟩ := key
  refine ⟨⟨out, hout⟩, ?_, ?_, ?_⟩
  · intro res st2 as h
    rw [h] at hout
    injection hout with h2
    subst h2
    exact hcount
  · intro row res st2 as hrow h
    rw [h] at hout
    injection hout with h2
    subst h2
    exact hfetch0 row hrow
  · intro res st2 as h
    rw [h] at hout
    injection hout with h2
    subst h2
    exact hres

/-- C2 witness: the amended statement instantiated at the sign-in-rejected
environment — the run returns a result, and the returned trace issues no
insert. -/
theorem register_duplicate_recovery_results_witness :
    (∃ out, register dupSignInFailEnv "Jane" "Doe" "jane@x.com"
      initAuthState = .ok out) ∧
    countInserts ([] : List StoreAction) ≤ 1 := by
  obtain ⟨h1, h2, h3, h4⟩ := register_duplicate_recovery_results
    dupSignInFailEnv "Jane" "Doe" "jane@x.com" initAuthState dupErr rfl
    (by decide) (by decide)
  exact ⟨h1, h2 { error := some "User already exists, please login", success := none }
    initAuthState [] rfl⟩

/-- C3: when sign-up succeeds and the created profile row comes back with
a `user_id` different from the Identity-Provider-issued id, `register`
issues a compensating delete of that malformed row and returns the
retry-suggesting error "User profile creation failed. Please try again.",
not a success. -/
theorem register_id_mismatch_compensates (env : RegisterEnv)
    (fn ln email : String) (st : AuthState) (u : AuthUser) (cu : User)
    (hsu : env.signUp = .ok u) (hrace : env.mainCreateRaceTimeout = false)
    (hcreate : (createUserInCustomTable env.mainCreate u fn ln env.now
      (cacheDelete st.userCache email)).1 = some cu)
    (hmm : cu.user_id ≠ u.id) :
    ∃ st2 as, register env fn ln email st =
      .ok ({ error := some "User profile creation failed. Please try again.",
             success := none }, st2, as) ∧
      StoreAction.deleteById cu.user_id ∈ as := by
  have hb : (cu.user_id != u.id) = true := bne_iff_ne.mpr hmm
  rcases hcv : createUserInCustomTable env.mainCreate u fn ln env.now
    (cacheDelete st.userCache email) with ⟨r, c2, as2⟩
  rw [hcv] at hcreate
  simp only at hcreate
  subst hcreate
  refine ⟨{ st with userCache := c2 },
    as2 ++ [.deleteById cu.user_id], ?_, ?_⟩
  · simp [register, registerFrom, registerMain, registerInvalidate, hsu,
      hrace, hcv, hb]
  · simp

/-- C3 witness: the id-mismatch environment returns the retry error and
its trace contains the compensating delete of the malformed row. -/
theorem register_id_mismatch_compensates_witness :
    ∃ st2 as, register idMismatchEnv "Jane" "Doe" "jane@x.com"
      initAuthState =
      .ok ({ error := some "User profile creation failed. Please try again.",
             success := none }, st2, as) ∧
      StoreAction.deleteById sampleRowWrongId.user_id ∈ as := by
  exact register_id_mismatch_compensates idMismatchEnv "Jane" "Doe"
    "jane@x.com" initAuthState sampleAuthUser sampleRowWrongId rfl rfl
    (by decide) (by decide)

/-- C4: in register's recovery path for an already-existing identity, when
the recovery sign-in succeeds: if a matching profile row is found,
`register` returns success "User already exists, please login"; if the row
is missing, the insert it issues is built from the now-authenticated
identity (its `user_id` is the identity's id), and when the store accepts
it `register` returns success "User setup completed, please login". -/
theorem register_recovery_creates_missing_row (env : RegisterEnv)
    (fn ln email : String) (st : AuthState) (e : CallErr) (u : AuthUser)
    (hsu : env.signUp = .err e) (hdup : isDuplicateSignUpErr e = true)
    (hcode : e.code ≠ "email_address_invalid")
    (hrec : env.recSignIn = .ok u) :
    (∀ row, env.recFetch = .ok row →
      register env fn ln email st =
        .ok ({ error := none,
               success := some "User already exists, please login" },
          { st with userCache := cacheSet (cacheDelete st.userCache email) email row },
          [.selectByEmail email])) ∧
    (∀ row2, dbMiss env.recFetch = true →
      tableCheckFailed env.recCreate.tableCheck = false →
      env.recCreate.insert = .ok row2 →
      register env fn ln email st =
        .ok ({ error := none,
               success := some "User setup completed, please login" },
          { st with userCache := cacheSet (cacheDelete st.userCache email) u.email row2 },
          [.selectByEmail email, .tableProbe,
            .insertRow (mkUserData u fn ln env.now)]) ∧
      (mkUserData u fn ln env.now).user_id = u.id) := by
  have hc : (e.code == "email_address_invalid") = false :=
    beq_eq_false_iff_ne.mpr hcode
  have hmiss : cacheGet (cacheDelete st.userCache email) email = none :=
    cacheGet_delete_self st.userCache email
  constructor
  · intro row hrf
    simp [register, registerFrom, registerMain, registerInvalidate, hsu,
      hc, hdup, hrec, getUserFromCustomTable, hmiss, hrf]
  · intro row2 hdm htc hins
    have hget : getUserFromCustomTable email env.recFetch
        (cacheDelete st.userCache email) =
        (none, cacheDelete st.userCache email, [.selectByEmail email]) :=
      getUserFromCustomTable_miss email env.recFetch
        (cacheDelete st.userCache email) hmiss hdm
    have hcv := createUserInCustomTable_ok env.recCreate u fn ln env.now
      (cacheDelete st.userCache email) row2 htc hins
    refine ⟨?_, rfl⟩
    simp [register, registerFrom, registerMain, registerInvalidate, hsu,
      hc, hdup, hrec, hget, hcv]

/-- C4 witness: concrete recovery runs — with the row present, success
"User already exists, please login"; with the row missing and the insert
accepted, success "User setup completed, please login" from a row keyed to
the identity's id. -/
theorem register_recovery_creates_missing_row_witness :
    register dupRowExistsEnv "Jane" "Doe" "jane@x.com" initAuthState =
      .ok ({ error := none,
             success := some "User already exists, please login" },
        { initAuthState with userCache := cacheSet (cacheDelete [] "jane@x.com") "jane@x.com" sampleUser },
        [.selectByEmail "jane@x.com"]) ∧
    (register dupRowMissingEnv "Jane" "Doe" "jane@x.com" initAuthState =
      .ok ({ error := none,
             success := some "User setup completed, please login" },
        { initAuthState with userCache := cacheSet (cacheDelete [] "jane@x.com") sampleAuthUser.email sampleUser },
        [.selectByEmail "jane@x.com", .tableProbe,
          .insertRow (mkUserData sampleAuthUser "Jane" "Doe" "t0")]) ∧
      (mkUserData sampleAuthUser "Jane" "Doe" "t0").user_id =
        sampleAuthUser.id) := by
  obtain ⟨h1, h2⟩ := register_recovery_creates_missing_row dupRowExistsEnv
    "Jane" "Doe" "jane@x.com" initAuthState dupErr sampleAuthUser rfl
    (by decide) (by decide) rfl
  obtain ⟨g1, g2⟩ := register_recovery_creates_missing_row dupRowMissingEnv
    "Jane" "Doe" "jane@x.com" initAuthState dupErr sampleAuthUser rfl
    (by decide) (by decide) rfl
  exact ⟨h1 sampleUser rfl, g2 sampleUser rfl rfl rfl⟩

end IdeaScraper
